import Mathlib

/-!
Verification of `src/telegram_match_poster.py`.

The script is embedded shallowly:
* a JSON match record (a Python dict whose values in this script are all
  strings) becomes an association list `Rec`; indexing `m["k"]` becomes
  `getKey`, which returns `Except.error k` where Python raises `KeyError('k')`;
* the parsed top-level JSON object becomes `TopDict` (the script only reads
  the key "server_response", whose value is an array of records);
* network calls (`requests.get` / `requests.post`) are modelled by an oracle
  argument carrying the outcome of the call: `Except.error e` when the call
  raises, `Except.ok r` with the status code and parsed body otherwise;
* `random.sample(l, k)` is modelled by an oracle list of chosen indices:
  any list of `k` pairwise-distinct in-range indices is a possible outcome;
* Python float arithmetic `(won / total) * 100` is modelled in `ℚ`
  (the comparisons the script performs, `> 80` at integer boundary cases,
  agree with exact rational arithmetic), and the `%.2f` rendering of the
  percentage is modelled by rounding the rational to hundredths;
* the congratulatory message is represented by `CongratsMsg`, whose
  constructors carry the data interpolated into the corresponding f-string.
-/

namespace TelegramMatchPoster

/-- A match record: an association list from JSON field names to string
values (every field of every record in the script's dataset is a string). -/
abbrev Rec := List (String × String)

/-- `m["k"]` on a Python dict: the value when the key is present, otherwise
a `KeyError` carrying the key name. -/
def getKey (m : Rec) (k : String) : Except String String :=
  match m.lookup k with
  | some v => Except.ok v
  | none => Except.error k

/-- The parsed top-level JSON object, as far as the script inspects it:
an association from keys to arrays of records. `none` models Python `None`. -/
abbrev TopDict := List (String × List Rec)

/-- Python `str.lower()` (the script's data is ASCII). -/
def pyLower (s : String) : String := String.mk (s.data.map Char.toLower)

/-- Python `str.capitalize()`: first character uppercased, the rest
lowercased (the script's data is ASCII). -/
def pyCapitalize (s : String) : String :=
  match s.data with
  | [] => ""
  | c :: cs => String.mk (Char.toUpper c :: cs.map Char.toLower)

/-- Outcome of the `requests.get(API_URL)` call in `fetch_data`: either an
exception, or a response with its status code and parsed JSON body. -/
structure HttpResp where
  status : Nat
  body : TopDict
deriving DecidableEq, Repr

/-- `fetch_data` (lines 22-37): returns the parsed JSON on HTTP 200 and
`None` on a non-200 status or any exception. -/
def fetch_data (response : Except String HttpResp) : Option TopDict :=
  match response with
  | Except.ok r => if r.status = 200 then some r.body else none
  | Except.error _ => none

/-- The list comprehension in `filter_matches_by_date` (line 47):
`[match for match in data["server_response"] if match["m_date"] == target_date]`.
Records are scanned left to right; a record without the key "m_date"
raises `KeyError('m_date')`. -/
def filterByDateList : List Rec → String → Except String (List Rec)
  | [], _ => Except.ok []
  | m :: rest, target_date => do
    let d ← getKey m "m_date"
    let tail ← filterByDateList rest target_date
    pure (if d == target_date then m :: tail else tail)

/-- `filter_matches_by_date` (lines 39-49): `None` or an empty dict, or a
dict without the key "server_response", yields `[]`; otherwise the records
whose "m_date" field equals the target date exactly. -/
def filter_matches_by_date (data : Option TopDict) (target_date : String) :
    Except String (List Rec) :=
  match data with
  | none => Except.ok []
  | some d =>
    if d.isEmpty then Except.ok []
    else
      match d.lookup "server_response" with
      | none => Except.ok []
      | some ms => filterByDateList ms target_date

/-- Line 62: `(won_matches / total_matches) * 100 if total_matches > 0 else 0`.
The guard means the division is only ever performed with a nonzero
denominator. -/
def winPercentage (won total : Nat) : ℚ :=
  if 0 < total then ((won : ℚ) / (total : ℚ)) * 100 else 0

/-- The congratulatory message returned by `check_yesterday_results`:
either the fixed perfect-day text, or the amazing-day text interpolating
`won_matches`, `total_matches` and the percentage. -/
inductive CongratsMsg where
  | perfectDay : CongratsMsg
  | amazingDay (won total : Nat) (pct : ℚ) : CongratsMsg
deriving DecidableEq, Repr

/-- Reading `match["outcome"]` for each record in order, as the generator
expression on line 61 does; the first record without the key raises. -/
def getOutcomes : List Rec → Except String (List String)
  | [] => Except.ok []
  | m :: rest => do
    let o ← getKey m "outcome"
    let os ← getOutcomes rest
    pure (o :: os)

/-- `check_yesterday_results` (lines 51-70): `None` for an empty list;
otherwise `won_matches` counts records whose outcome lowercases to "win"
over ALL records (`total_matches = len(matches)`), returning the perfect-day
message when `won_matches == total_matches` and the amazing-day message when
the percentage strictly exceeds 80. -/
def check_yesterday_results (ms : List Rec) :
    Except String (Option CongratsMsg) :=
  if ms.isEmpty then Except.ok none
  else do
    let outcomes ← getOutcomes ms
    let total := ms.length
    let won := outcomes.countP (fun o => pyLower o == "win")
    let pct := winPercentage won total
    if won = total then pure (some CongratsMsg.perfectDay)
    else if pct > 80 then pure (some (CongratsMsg.amazingDay won total pct))
    else pure none

/-- The Markdown block built by `format_match`'s return statement
(lines 88-97), as a function of the already-substituted field values. -/
def matchBlock (league country m_time home_team away_team pick result
    outcome h_logo a_logo league_logo : String) : String :=
  "🏆 **" ++ league ++ " (" ++ country ++ ")** 🏆\n" ++
  "⏰ **Time**: " ++ m_time ++ "\n" ++
  "⚽ **" ++ home_team ++ "** 🆚 **" ++ away_team ++ "**\n" ++
  "🎯 **Pick**: " ++ pick ++ "\n" ++
  "📊 **Result**: " ++ result ++ "\n" ++
  "✅ **Outcome**: " ++ outcome ++ "\n" ++
  "\n[Home Team Logo](" ++ h_logo ++ ") | [Away Team Logo](" ++ a_logo ++
  ") | [League Logo](" ++ league_logo ++ ")\n" ++
  "━━━━━━━━━━━━━━━"

/-- `format_match` (lines 72-97): reads each field in source order (a
missing field raises `KeyError`), substitutes "Not Played" when the result
is the sentinel "-", and "Pending" when the outcome string is falsy (empty),
capitalizing a non-empty outcome. -/
def format_match (m : Rec) : Except String String := do
  let home_team ← getKey m "home_team"
  let away_team ← getKey m "away_team"
  let league ← getKey m "league"
  let country ← getKey m "country"
  let m_time ← getKey m "m_time"
  let pick ← getKey m "pick"
  let result0 ← getKey m "result"
  let result := if result0 != "-" then result0 else "Not Played"
  let outcome0 ← getKey m "outcome"
  let outcome := if outcome0 != "" then pyCapitalize outcome0 else "Pending"
  let h_logo ← getKey m "h_logo_path"
  let a_logo ← getKey m "a_logo_path"
  let league_logo ← getKey m "league_logo"
  pure (matchBlock league country m_time home_team away_team pick result
    outcome h_logo a_logo league_logo)

/-- Outcome of the `requests.post` call in `send_message`: status code,
the "ok" field of the parsed response body (which the script never reads),
and the raw response text (logged on failure). -/
structure TgResp where
  status : Nat
  okField : Bool
  text : String
deriving DecidableEq, Repr

/-- Which branch of `send_message` runs (the function itself returns `None`
on every path; this records what is logged). -/
inductive SendOutcome where
  | posted : SendOutcome
  | failedStatus (responseText : String) : SendOutcome
  | errorCaught (msg : String) : SendOutcome
deriving DecidableEq, Repr

/-- The URL built on line 103. -/
def sendMessageUrl (botToken : String) : String :=
  "https://api.telegram.org/bot" ++ botToken ++ "/sendMessage"

/-- The JSON payload built on lines 104-109. -/
structure SendPayload where
  chat_id : String
  text : String
  parse_mode : String
  disable_web_page_preview : Bool
deriving DecidableEq, Repr

def sendPayload (channelId text : String) : SendPayload :=
  ⟨channelId, text, "Markdown", false⟩

/-- `send_message` (lines 99-117): the POST is attempted unconditionally
(there is no credential pre-check; `botToken` and `channelId` only enter the
URL and payload of `sendMessageUrl`/`sendPayload`); success is judged by
HTTP status 200 alone, never by the body's "ok" field; an exception is
caught and logged. `post` is the oracle for `requests.post(url, json=payload)`,
invoked unconditionally with the built URL and payload. -/
def send_message (botToken channelId text : String)
    (post : String → SendPayload → Except String TgResp) : SendOutcome :=
  match post (sendMessageUrl botToken) (sendPayload channelId text) with
  | Except.ok r =>
    if r.status = 200 then SendOutcome.posted
    else SendOutcome.failedStatus r.text
  | Except.error e => SendOutcome.errorCaught e

/-- `random.sample(l, k)` (line 298), modelled by an oracle list of chosen
indices: a possible outcome is any list of `k` pairwise-distinct in-range
indices, and the sample is the corresponding elements; `none` marks an index
list that no execution of `random.sample` can produce. -/
def randomSample {α : Type} (l : List α) (k : Nat) (idxs : List Nat) :
    Option (List α) :=
  if idxs.Nodup ∧ idxs.length = k ∧ ∀ i ∈ idxs, i < l.length then
    some (idxs.filterMap fun i => l[i]?)
  else none

/-- The `%.2f` interpolation of the win percentage in the amazing-day
f-string, modelled by rounding the rational to hundredths. -/
def formatPct (q : ℚ) : String :=
  let c : Int := round (q * 100)
  let ip := c / 100
  let fp := c % 100
  toString ip ++ "." ++ (if fp < 10 then "0" ++ toString fp else toString fp)

/-- The literal strings returned on lines 67 and 69. -/
def renderCongrats : CongratsMsg → String
  | CongratsMsg.perfectDay =>
    "🎉 **Perfect Day!** All of yesterday\x27s picks were winners! Keep riding the wave! 🚀"
  | CongratsMsg.amazingDay won total pct =>
    "🥳 **Amazing Day!** " ++ toString won ++ "/" ++ toString total ++
    " of yesterday\x27s picks won (" ++ formatPct pct ++
    "%)! Let\x27s keep it going! 💪"

/-- Line 20. -/
def MORE_MATCHES_LINK : String := "https://yourwebsite.com/matches"

/-- The notice appended on line 296 when no matches are scheduled today. -/
def noMatchesNotice (today : String) : String :=
  "⚽ No matches scheduled for today (" ++ today ++ "). Check back tomorrow! ⚽"

/-- The header of the matches block on line 301. -/
def todayHeader (today : String) : String :=
  "⚽ **Today\x27s Top Matches (" ++ today ++ ")** ⚽\n\n"

/-- The hard-coded dataset `json_data` assigned inside `main`
(lines 125-281); `main` uses it in place of any fetched data. -/
def jsonData : TopDict :=
  [("server_response",
    [[("m_time", "17:30"), ("pick", "1"), ("country", "Iran"),
      ("league", "Iran - Persian Gulf Pro League"), ("m_date", "2025-05-15"),
      ("home_team", "Persepolis FC"), ("away_team", "Havadar"),
      ("bet_odds", ""), ("outcome", "win"), ("result", "2 - 0"),
      ("h_logo_path", "https://media.api-sports.io/football/teams/2742.png"),
      ("a_logo_path", "https://media.api-sports.io/football/teams/15541.png"),
      ("league_logo", "https://media.api-sports.io/football/leagues/290.png"),
      ("fixture_id", "1371668"), ("m_status", "FT")],
     [("m_time", "21:00"), ("pick", "2"), ("country", "Saudi-Arabia"),
      ("league", "Saudi-Arabia - Pro League"), ("m_date", "2025-05-15"),
      ("home_team", "Al-Raed"), ("away_team", "Al-Ittihad FC"),
      ("bet_odds", ""), ("outcome", "win"), ("result", "1 - 3"),
      ("h_logo_path", "https://media.api-sports.io/football/teams/2935.png"),
      ("a_logo_path", "https://media.api-sports.io/football/teams/2938.png"),
      ("league_logo", "https://media.api-sports.io/football/leagues/307.png"),
      ("fixture_id", "1252700"), ("m_status", "FT")],
     [("m_time", "14:45"), ("pick", "Over 2.5"), ("country", "Singapore"),
      ("league", "Singapore - Premier League"), ("m_date", "2025-05-15"),
      ("home_team", "Young Lions"), ("away_team", "Geylang International"),
      ("bet_odds", ""), ("outcome", "win"), ("result", "1 - 2"),
      ("h_logo_path", "https://media.api-sports.io/football/teams/4208.png"),
      ("a_logo_path", "https://media.api-sports.io/football/teams/4203.png"),
      ("league_logo", "https://media.api-sports.io/football/leagues/368.png"),
      ("fixture_id", "1196675"), ("m_status", "FT")],
     [("m_time", "16:00"), ("pick", "1"), ("country", "Kenya"),
      ("league", "Kenya - FKF Premier League"), ("m_date", "2025-05-15"),
      ("home_team", "GOR Mahia"), ("away_team", "Nairobi City Stars"),
      ("bet_odds", ""), ("outcome", "lose"), ("result", "1 - 2"),
      ("h_logo_path", "https://media.api-sports.io/football/teams/2467.png"),
      ("a_logo_path", "https://media.api-sports.io/football/teams/2482.png"),
      ("league_logo", "https://media.api-sports.io/football/leagues/276.png"),
      ("fixture_id", "1303840"), ("m_status", "FT")],
     [("m_time", "21:00"), ("pick", "Over 1.5"), ("country", "Poland"),
      ("league", "Poland - II Liga - East"), ("m_date", "2025-05-16"),
      ("home_team", "Zaglebie Sosnowiec"), ("away_team", "Wisla Pulawy"),
      ("bet_odds", ""), ("outcome", ""), ("result", "-"),
      ("h_logo_path", "https://media.api-sports.io/football/teams/342.png"),
      ("a_logo_path", "https://media.api-sports.io/football/teams/16272.png"),
      ("league_logo", "https://media.api-sports.io/football/leagues/109.png"),
      ("fixture_id", "1211823"), ("m_status", "NS")],
     [("m_time", "21:30"), ("pick", "1"), ("country", "England"),
      ("league", "England - Premier League"), ("m_date", "2025-05-16"),
      ("home_team", "Aston Villa"), ("away_team", "Tottenham"),
      ("bet_odds", ""), ("outcome", ""), ("result", "-"),
      ("h_logo_path", "https://media.api-sports.io/football/teams/66.png"),
      ("a_logo_path", "https://media.api-sports.io/football/teams/47.png"),
      ("league_logo", "https://media.api-sports.io/football/leagues/39.png"),
      ("fixture_id", "1208384"), ("m_status", "NS")],
     [("m_time", "19:00"), ("pick", "1"), ("country", "Norway"),
      ("league", "Norway - Eliteserien"), ("m_date", "2025-05-16"),
      ("home_team", "Rosenborg"), ("away_team", "Haugesund"),
      ("bet_odds", ""), ("outcome", ""), ("result", "-"),
      ("h_logo_path", "https://media.api-sports.io/football/teams/331.png"),
      ("a_logo_path", "https://media.api-sports.io/football/teams/328.png"),
      ("league_logo", "https://media.api-sports.io/football/leagues/103.png"),
      ("fixture_id", "1342237"), ("m_status", "NS")],
     [("m_time", "21:30"), ("pick", "2"), ("country", "Austria"),
      ("league", "Australia - 2. Liga"), ("m_date", "2025-05-16"),
      ("home_team", "Schwarz-WeiSs Bregenz"), ("away_team", "Ried"),
      ("bet_odds", ""), ("outcome", ""), ("result", "-"),
      ("h_logo_path", "https://media.api-sports.io/football/teams/8259.png"),
      ("a_logo_path", "https://media.api-sports.io/football/teams/1028.png"),
      ("league_logo", "https://media.api-sports.io/football/leagues/219.png"),
      ("fixture_id", "1219918"), ("m_status", "NS")],
     [("m_time", "22:15"), ("pick", "1"), ("country", "England"),
      ("league", "England - Premier League"), ("m_date", "2025-05-16"),
      ("home_team", "Chelsea"), ("away_team", "Manchester United"),
      ("bet_odds", ""), ("outcome", ""), ("result", "-"),
      ("h_logo_path", "https://media.api-sports.io/football/teams/49.png"),
      ("a_logo_path", "https://media.api-sports.io/football/teams/33.png"),
      ("league_logo", "https://media.api-sports.io/football/leagues/39.png"),
      ("fixture_id", "1208387"), ("m_status", "NS")]])]

/-- The message composed by `main` (lines 283-307). `main` never calls
`fetch_data`: both filter calls receive the literal `jsonData`, so the
message does not depend on any fetch outcome. `yesterday` and `today` are
the two `strftime` date strings; `sampleIdxs` is the oracle for
`random.sample`. An uncaught `KeyError` (propagated to the scheduler loop)
is `Except.error`. -/
def mainMessage (yesterday today : String) (sampleIdxs : List Nat) :
    Except String String := do
  let yesterday_matches ← filter_matches_by_date (some jsonData) yesterday
  let congrats_message ← check_yesterday_results yesterday_matches
  let todays_matches ← filter_matches_by_date (some jsonData) today
  let parts1 : List String :=
    match congrats_message with
    | some c => [renderCongrats c ++ "\n\n"]
    | none => []
  if todays_matches.isEmpty then
    pure (String.join (parts1 ++ [noMatchesNotice today]))
  else do
    let selected ←
      match randomSample todays_matches (min 3 todays_matches.length)
          sampleIdxs with
      | some s => Except.ok s
      | none => Except.error "random.sample"
    let formatted ← selected.mapM format_match
    pure (String.join (parts1 ++
      [todayHeader today ++ String.intercalate "\n\n" formatted ++
        "\n\n🔗 [Check More Matches](" ++ MORE_MATCHES_LINK ++ ")"]))

instance {ε α : Type} [DecidableEq ε] [DecidableEq α] :
    DecidableEq (Except ε α) := fun x y =>
  match x, y with
  | Except.ok a, Except.ok b =>
    if h : a = b then isTrue (by rw [h])
    else isFalse (fun hc => h (Except.ok.inj hc))
  | Except.error a, Except.error b =>
    if h : a = b then isTrue (by rw [h])
    else isFalse (fun hc => h (Except.error.inj hc))
  | Except.ok _, Except.error _ => isFalse (fun hc => Except.noConfusion hc)
  | Except.error _, Except.ok _ => isFalse (fun hc => Except.noConfusion hc)

/-- A completed record that was won. -/
def rW : Rec := [("outcome", "win")]

/-- A completed record that was lost. -/
def rL : Rec := [("outcome", "lose")]

/-- An incomplete record: the outcome field is present but empty. -/
def rE : Rec := [("outcome", "")]

/-- Six completed records of which five were won (win rate 83.33%). -/
def fiveOfSix : List Rec := [rW, rW, rW, rW, rW, rL]

/-- The count computed on line 61:
`sum(1 for match in matches if match["outcome"].lower() == "win")`,
for lists whose records all carry the outcome key. -/
def wonCount (ms : List Rec) : Nat :=
  ms.countP fun m => pyLower ((m.lookup "outcome").getD "") == "win"

/-- A record carrying exactly the fields `format_match` reads. -/
def mkMatch (home_team away_team league country m_time pick result
    outcome h_logo a_logo league_logo : String) : Rec :=
  [("home_team", home_team), ("away_team", away_team), ("league", league),
   ("country", country), ("m_time", m_time), ("pick", pick),
   ("result", result), ("outcome", outcome), ("h_logo_path", h_logo),
   ("a_logo_path", a_logo), ("league_logo", league_logo)]

/-! ## Helper lemmas -/

lemma ok_bind {α β : Type} (a : α) (f : α → Except String β) :
    Except.ok a >>= f = f a := rfl

lemma error_bind {α β : Type} (e : String) (f : α → Except String β) :
    (Except.error e : Except String α) >>= f = Except.error e := rfl

lemma pure_eq {α : Type} (a : α) : (pure a : Except String α) = Except.ok a := rfl

lemma winPercentage_gt_80_iff (won total : Nat) (h : 0 < total) :
    winPercentage won total > 80 ↔ 80 * total < won * 100 := by
  unfold winPercentage
  rw [if_pos h]
  have h0 : (0 : ℚ) < (total : ℚ) := by exact_mod_cast h
  rw [gt_iff_lt, div_mul_eq_mul_div, lt_div_iff₀ h0]
  exact_mod_cast Iff.rfl

lemma getOutcomes_ok (ms : List Rec)
    (h : ∀ m ∈ ms, (m.lookup "outcome").isSome) :
    getOutcomes ms = Except.ok (ms.map fun m => (m.lookup "outcome").getD "") := by
  induction ms with
  | nil => rfl
  | cons m rest ih =>
    obtain ⟨v, hv⟩ := Option.isSome_iff_exists.mp (h m (by simp))
    have ih' := ih (fun m' hm' => h m' (by simp [hm']))
    simp only [getOutcomes, getKey, hv, ih', ok_bind, pure_eq, List.map_cons,
      Option.getD_some]

lemma getOutcomes_missing (ms : List Rec)
    (h : ∃ m ∈ ms, m.lookup "outcome" = none) :
    getOutcomes ms = Except.error "outcome" := by
  induction ms with
  | nil => simp at h
  | cons m rest ih =>
    by_cases hm : m.lookup "outcome" = none
    · simp only [getOutcomes, getKey, hm, error_bind]
    · obtain ⟨m', hm', hnone⟩ := h
      rcases List.mem_cons.mp hm' with heq | htail
      · exact absurd (heq ▸ hnone) hm
      · obtain ⟨v, hv⟩ := Option.isSome_iff_exists.mp
          (Option.ne_none_iff_isSome.mp hm)
        simp only [getOutcomes, getKey, hv, ok_bind, ih ⟨m', htail, hnone⟩,
          error_bind]

lemma check_spec (ms : List Rec) (outcomes : List String)
    (hne : ms ≠ []) (ho : getOutcomes ms = Except.ok outcomes) :
    check_yesterday_results ms =
      (if outcomes.countP (fun o => pyLower o == "win") = ms.length then
        Except.ok (some CongratsMsg.perfectDay)
      else if 80 * ms.length <
          (outcomes.countP (fun o => pyLower o == "win")) * 100 then
        Except.ok (some (CongratsMsg.amazingDay
          (outcomes.countP (fun o => pyLower o == "win")) ms.length
          (winPercentage (outcomes.countP (fun o => pyLower o == "win"))
            ms.length)))
      else Except.ok none) := by
  have hpos : 0 < ms.length := List.length_pos.mpr hne
  unfold check_yesterday_results
  rw [if_neg (by simpa [List.isEmpty_iff] using hne)]
  rw [ho, ok_bind]
  simp only [pure_eq, winPercentage_gt_80_iff _ _ hpos]

lemma check_error (ms : List Rec) (e : String)
    (hne : ms ≠ []) (ho : getOutcomes ms = Except.error e) :
    check_yesterday_results ms = Except.error e := by
  unfold check_yesterday_results
  rw [if_neg (by simpa [List.isEmpty_iff] using hne)]
  rw [ho, error_bind]

lemma filterByDateList_ok (ms : List Rec) (target : String)
    (h : ∀ m ∈ ms, (m.lookup "m_date").isSome) :
    filterByDateList ms target =
      Except.ok (ms.filter fun m => m.lookup "m_date" == some target) := by
  induction ms with
  | nil => rfl
  | cons m rest ih =>
    obtain ⟨v, hv⟩ := Option.isSome_iff_exists.mp (h m (by simp))
    have ih' := ih (fun m' hm' => h m' (by simp [hm']))
    simp only [filterByDateList, getKey, hv, ok_bind, ih', pure_eq,
      List.filter_cons]
    rfl

lemma filterByDateList_missing (ms : List Rec) (target : String)
    (h : ∃ m ∈ ms, m.lookup "m_date" = none) :
    filterByDateList ms target = Except.error "m_date" := by
  induction ms with
  | nil => simp at h
  | cons m rest ih =>
    by_cases hm : m.lookup "m_date" = none
    · simp only [filterByDateList, getKey, hm, error_bind]
    · obtain ⟨m', hm', hnone⟩ := h
      rcases List.mem_cons.mp hm' with heq | htail
      · exact absurd (heq ▸ hnone) hm
      · obtain ⟨v, hv⟩ := Option.isSome_iff_exists.mp
          (Option.ne_none_iff_isSome.mp hm)
        simp only [filterByDateList, getKey, hv, ok_bind,
          ih ⟨m', htail, hnone⟩, error_bind]

lemma filter_no_server_response (target : String) (d : TopDict)
    (hd : d.lookup "server_response" = none) :
    filter_matches_by_date (some d) target = Except.ok [] := by
  simp only [filter_matches_by_date]
  by_cases he : d.isEmpty
  · rw [if_pos he]
  · rw [if_neg he, hd]

lemma filter_has_server_response (target : String) (d : TopDict)
    (ms : List Rec) (hd : d.lookup "server_response" = some ms) :
    filter_matches_by_date (some d) target = filterByDateList ms target := by
  simp only [filter_matches_by_date]
  have he : ¬d.isEmpty := by
    intro hc
    rw [List.isEmpty_iff.mp hc] at hd
    simp at hd
  rw [if_neg he, hd]

lemma countP_map_outcomes (ms : List Rec) :
    (ms.map fun m => (m.lookup "outcome").getD "").countP
      (fun o => pyLower o == "win") = wonCount ms := by
  rw [List.countP_map]; rfl

/-! ## Claim theorems -/

/-- C2 counterexample: on `[win, incomplete]` the claim demands the
perfect-day annotation (the only completed record is a win), but
`check_yesterday_results` counts the incomplete record in the denominator
(1/2 = 50%) and returns no annotation. -/
theorem perfect_day_counts_incomplete_cx :
    check_yesterday_results [rW, rE] = Except.ok none := by
  rw [check_spec [rW, rE] ["win", ""] (by decide) (by decide)]
  decide

/-- C2 amended: `check_yesterday_results` applies no completed-records
filter: the denominator is the count of ALL records, and the perfect-day
annotation is produced exactly when every record (incomplete ones included)
has an outcome that lowercases to "win". -/
theorem perfect_day_iff_all_records_win (ms : List Rec) (hne : ms ≠ [])
    (hkeys : ∀ m ∈ ms, (m.lookup "outcome").isSome) :
    check_yesterday_results ms = Except.ok (some CongratsMsg.perfectDay) ↔
      ∀ m ∈ ms, pyLower ((m.lookup "outcome").getD "") = "win" := by
  rw [check_spec ms _ hne (getOutcomes_ok ms hkeys), countP_map_outcomes]
  constructor
  · intro h
    by_cases hall : wonCount ms = ms.length
    · intro m hm
      have hp := List.countP_eq_length.mp hall m hm
      simpa [beq_iff_eq] using hp
    · rw [if_neg hall] at h
      split at h <;> simp at h
  · intro h
    have hall : wonCount ms = ms.length := List.countP_eq_length.mpr
      (fun m hm => by simpa [beq_iff_eq] using h m hm)
    rw [if_pos hall]

theorem perfect_day_iff_all_records_win_witness :
    check_yesterday_results [rW, rW] = Except.ok (some CongratsMsg.perfectDay) :=
  (perfect_day_iff_all_records_win [rW, rW] (by decide) (by decide)).mpr
    (by decide)

/-- C3 counterexample: at a completed-win ratio of exactly 0.75 (3 wins out
of 4) the claim demands the amazing-day annotation, but the code requires
the percentage to strictly exceed 80 and returns no annotation. -/
theorem amazing_day_threshold_cx :
    check_yesterday_results [rW, rW, rW, rL] = Except.ok none := by
  rw [check_spec [rW, rW, rW, rL] ["win", "win", "win", "lose"]
    (by decide) (by decide)]
  decide

/-- C3 amended: for a non-perfect day the amazing-day annotation is produced
exactly when the win percentage strictly exceeds 80 (equivalently
`80 * total < won * 100`), not at the 75% threshold. -/
theorem amazing_day_iff_gt_80 (ms : List Rec) (hne : ms ≠ [])
    (hkeys : ∀ m ∈ ms, (m.lookup "outcome").isSome)
    (hnotall : wonCount ms ≠ ms.length) :
    check_yesterday_results ms =
        Except.ok (some (CongratsMsg.amazingDay (wonCount ms) ms.length
          (winPercentage (wonCount ms) ms.length))) ↔
      80 * ms.length < wonCount ms * 100 := by
  rw [check_spec ms _ hne (getOutcomes_ok ms hkeys), countP_map_outcomes]
  rw [if_neg hnotall]
  constructor
  · intro h
    by_contra hc
    rw [if_neg hc] at h
    simp at h
  · intro h
    rw [if_pos h]

theorem amazing_day_iff_gt_80_witness :
    check_yesterday_results fiveOfSix =
      Except.ok (some (CongratsMsg.amazingDay 5 6 (winPercentage 5 6))) := by
  have h := (amazing_day_iff_gt_80 fiveOfSix (by decide) (by decide)
    (by decide)).mpr (by decide)
  have e : wonCount fiveOfSix = 5 := by decide
  rw [e] at h
  exact h

/-- C9: on an empty list, or a non-empty list in which every record's
outcome field is the empty string, `check_yesterday_results` returns no
annotation; and the guard on line 62 makes the zero-denominator case yield
0 rather than performing the division. -/
theorem zero_completed_no_congrats (ms : List Rec)
    (h : ms = [] ∨ ∀ m ∈ ms, m.lookup "outcome" = some "") :
    check_yesterday_results ms = Except.ok none ∧
      ∀ won, winPercentage won 0 = 0 := by
  refine ⟨?_, fun won => by unfold winPercentage; rw [if_neg (by simp)]⟩
  rcases h with h | h
  · rw [h]; rfl
  · by_cases hne : ms = []
    · rw [hne]; rfl
    · have hpos : 0 < ms.length := List.length_pos.mpr hne
      rw [check_spec ms _ hne
        (getOutcomes_ok ms (fun m hm => by rw [h m hm]; rfl))]
      have hcount : (ms.map fun m => (m.lookup "outcome").getD "").countP
          (fun o => pyLower o == "win") = 0 := by
        rw [List.countP_eq_zero]
        intro o ho
        obtain ⟨m, hm, rfl⟩ := List.mem_map.mp ho
        rw [h m hm]
        decide
      rw [hcount, if_neg (by omega), if_neg (by omega)]

theorem zero_completed_no_congrats_witness :
    check_yesterday_results [rE, rE] = Except.ok none :=
  (zero_completed_no_congrats [rE, rE] (Or.inr (by decide))).1

/-- C10: `check_yesterday_results` is invariant under permutation of its
input: its result depends only on the number of records, the number of
records whose outcome lowercases to "win", and (for the error case) whether
some record lacks the outcome key, all of which are permutation-invariant. -/
theorem checkResults_perm_invariant (ms ms' : List Rec) (hp : ms.Perm ms') :
    check_yesterday_results ms = check_yesterday_results ms' := by
  by_cases hne : ms = []
  · subst hne
    rw [List.perm_nil.mp hp.symm]
  · have hne' : ms' ≠ [] := by
      intro hc
      exact hne (List.perm_nil.mp (hc ▸ hp))
    by_cases hkeys : ∀ m ∈ ms, (m.lookup "outcome").isSome
    · have hkeys' : ∀ m ∈ ms', (m.lookup "outcome").isSome := fun m hm =>
        hkeys m (hp.mem_iff.mpr hm)
      rw [check_spec ms _ hne (getOutcomes_ok ms hkeys),
          check_spec ms' _ hne' (getOutcomes_ok ms' hkeys')]
      have hcnt : (ms.map fun m => (m.lookup "outcome").getD "").countP
            (fun o => pyLower o == "win") =
          (ms'.map fun m => (m.lookup "outcome").getD "").countP
            (fun o => pyLower o == "win") :=
        (hp.map _).countP_eq _
      rw [hcnt, hp.length_eq]
    · push_neg at hkeys
      obtain ⟨m, hm, hnone⟩ := hkeys
      have hnone' : m.lookup "outcome" = none :=
        Option.not_isSome_iff_eq_none.mp hnone
      rw [check_error ms _ hne (getOutcomes_missing ms ⟨m, hm, hnone'⟩),
          check_error ms' _ hne'
            (getOutcomes_missing ms' ⟨m, hp.mem_iff.mp hm, hnone'⟩)]

theorem checkResults_perm_invariant_witness :
    check_yesterday_results [rW, rL] = check_yesterday_results [rL, rW] :=
  checkResults_perm_invariant [rW, rL] [rL, rW] (List.Perm.swap rL rW [])

/-- C5 counterexample: a dataset whose single record lacks the date field
makes `filter_matches_by_date` raise `KeyError('m_date')` (the comprehension
indexes `match["m_date"]` unguarded), not return an empty result set. -/
theorem filter_missing_field_raises_cx :
    filter_matches_by_date (some [("server_response", [[("home_team", "X")]])])
      "2025-05-15" = Except.error "m_date" := by
  decide

/-- C5 amended: a missing or falsy TOP-LEVEL structure yields an empty list
without raising, but a RECORD missing an expected field raises a `KeyError`
that propagates out of the operation (in the filter when the date field is
absent, and in the formatter when a formatted field such as the home team
is absent); the record is not skipped. -/
theorem missing_record_field_raises :
    (∀ target, filter_matches_by_date none target = Except.ok []) ∧
    (∀ target (d : TopDict), d.lookup "server_response" = none →
      filter_matches_by_date (some d) target = Except.ok []) ∧
    (∀ target (d : TopDict) (ms : List Rec),
      d.lookup "server_response" = some ms →
      (∃ m ∈ ms, m.lookup "m_date" = none) →
      filter_matches_by_date (some d) target = Except.error "m_date") ∧
    (∀ m : Rec, m.lookup "home_team" = none →
      format_match m = Except.error "home_team") := by
  refine ⟨fun _ => rfl, filter_no_server_response, ?_, ?_⟩
  · intro target d ms hd hmiss
    rw [filter_has_server_response target d ms hd,
      filterByDateList_missing ms target hmiss]
  · intro m hm
    unfold format_match
    simp only [getKey, hm, error_bind]

theorem missing_record_field_raises_witness :
    filter_matches_by_date
        (some [("server_response", [[("m_date", "2025-05-15")], [("pick", "1")]])])
        "x" = Except.error "m_date" ∧
      format_match [] = Except.error "home_team" :=
  ⟨missing_record_field_raises.2.2.1 "x"
    [("server_response", [[("m_date", "2025-05-15")], [("pick", "1")]])]
    [[("m_date", "2025-05-15")], [("pick", "1")]] (by decide)
    ⟨[("pick", "1")], by decide, by decide⟩,
   missing_record_field_raises.2.2.2 [] (by decide)⟩

/-- C6: `filter_matches_by_date` returns exactly the records whose date
field is string-equal to the target (in particular an empty list when no
record's date matches), and a `None`/empty dataset or one without the
"server_response" key yields an empty list rather than an error. -/
theorem filter_by_date_spec (target : String) :
    filter_matches_by_date none target = Except.ok [] ∧
    (∀ d : TopDict, d.lookup "server_response" = none →
      filter_matches_by_date (some d) target = Except.ok []) ∧
    (∀ (d : TopDict) (ms : List Rec),
      d.lookup "server_response" = some ms →
      (∀ m ∈ ms, (m.lookup "m_date").isSome) →
      filter_matches_by_date (some d) target =
        Except.ok (ms.filter fun m => m.lookup "m_date" == some target)) ∧
    (∀ (d : TopDict) (ms : List Rec),
      d.lookup "server_response" = some ms →
      (∀ m ∈ ms, (m.lookup "m_date").isSome) →
      (∀ m ∈ ms, ¬m.lookup "m_date" = some target) →
      filter_matches_by_date (some d) target = Except.ok []) := by
  have h3 : ∀ (d : TopDict) (ms : List Rec),
      d.lookup "server_response" = some ms →
      (∀ m ∈ ms, (m.lookup "m_date").isSome) →
      filter_matches_by_date (some d) target =
        Except.ok (ms.filter fun m => m.lookup "m_date" == some target) := by
    intro d ms hd hkeys
    rw [filter_has_server_response target d ms hd,
      filterByDateList_ok ms target hkeys]
  refine ⟨rfl, filter_no_server_response target, h3, ?_⟩
  intro d ms hd hkeys hnone
  rw [h3 d ms hd hkeys]
  have : (ms.filter fun m => m.lookup "m_date" == some target) = [] := by
    rw [List.filter_eq_nil_iff]
    intro m hm
    simpa [beq_iff_eq] using hnone m hm
  rw [this]

theorem filter_by_date_spec_witness :
    filter_matches_by_date
        (some [("server_response",
          [[("m_date", "2025-05-15")], [("m_date", "2025-05-16")]])])
        "2025-05-15" = Except.ok [[("m_date", "2025-05-15")]] := by
  have h := (filter_by_date_spec "2025-05-15").2.2.1
    [("server_response", [[("m_date", "2025-05-15")], [("m_date", "2025-05-16")]])]
    [[("m_date", "2025-05-15")], [("m_date", "2025-05-16")]]
    (by decide) (by decide)
  rw [h]
  decide

lemma length_filterMap_index {α : Type} (l : List α) (idxs : List Nat)
    (h : ∀ i ∈ idxs, i < l.length) :
    (idxs.filterMap fun i => l[i]?).length = idxs.length := by
  induction idxs with
  | nil => rfl
  | cons i rest ih =>
    rw [List.filterMap_cons]
    rw [List.getElem?_eq_getElem (h i (by simp))]
    rw [List.length_cons, ih (fun j hj => h j (by simp [hj])), List.length_cons]

lemma filterMap_index_range {α : Type} (l : List α) :
    (List.range l.length).filterMap (fun i => l[i]?) = l := by
  induction l with
  | nil => rfl
  | cons a t ih =>
    rw [List.length_cons, List.range_succ_eq_map, List.filterMap_cons]
    simp only [List.getElem?_cons_zero]
    rw [List.filterMap_map]
    have hcomp : ((fun i => (a :: t)[i]?) ∘ Nat.succ) = fun i => t[i]? := by
      funext i
      simp
    rw [hcomp, ih]

lemma sample_subperm {α : Type} (l : List α) (idxs : List Nat)
    (hnd : idxs.Nodup) (hbound : ∀ i ∈ idxs, i < l.length) :
    List.Subperm (idxs.filterMap fun i => l[i]?) l := by
  have hsubset : idxs ⊆ List.range l.length := fun i hi =>
    List.mem_range.mpr (hbound i hi)
  obtain ⟨mid, hperm, hsl⟩ := List.Nodup.subperm hnd hsubset
  refine ⟨mid.filterMap fun i => l[i]?, hperm.filterMap _, ?_⟩
  have hs := hsl.filterMap (fun i => l[i]?)
  rwa [filterMap_index_range] at hs

/-- C7: any possible outcome of `random.sample(todays_matches, min(3, len))`
on line 298 has exactly `min 3 (length)` records, each belonging to the
input; the sample draws at pairwise-distinct positions, so it is a
sub-permutation of the input and duplicates no record of a duplicate-free
input. -/
theorem random_sample_spec (l : List Rec) (idxs : List Nat) (out : List Rec)
    (h : randomSample l (min 3 l.length) idxs = some out) :
    out.length = min 3 l.length ∧ (∀ m ∈ out, m ∈ l) ∧
      List.Subperm out l ∧ (l.Nodup → out.Nodup) := by
  unfold randomSample at h
  by_cases hc : idxs.Nodup ∧ idxs.length = min 3 l.length ∧
      ∀ i ∈ idxs, i < l.length
  · rw [if_pos hc] at h
    obtain ⟨hnd, hlen, hbound⟩ := hc
    have hout : out = idxs.filterMap fun i => l[i]? := (Option.some.inj h).symm
    subst hout
    have hsp := sample_subperm l idxs hnd hbound
    refine ⟨?_, fun m hm => hsp.subset hm, hsp, fun hnodup => ?_⟩
    · rw [length_filterMap_index l idxs hbound, hlen]
    · obtain ⟨mid, hperm, hsl⟩ := hsp
      exact hperm.nodup (hsl.nodup hnodup)
  · rw [if_neg hc] at h
    exact absurd h (by simp)

theorem random_sample_spec_witness :
    ([rL, rW] : List Rec).length = min 3 ([rW, rL] : List Rec).length ∧
      (∀ m ∈ ([rL, rW] : List Rec), m ∈ ([rW, rL] : List Rec)) ∧
      List.Subperm ([rL, rW] : List Rec) [rW, rL] ∧
      (([rW, rL] : List Rec).Nodup → ([rL, rW] : List Rec).Nodup) :=
  random_sample_spec [rW, rL] [1, 0] [rL, rW] (by decide)

lemma render_result_eq (r : String) :
    (if r != "-" then r else "Not Played") =
      (if r = "-" then "Not Played" else r) := by
  by_cases h : r = "-" <;> simp [h]

lemma render_outcome_eq (o : String) :
    (if o != "" then pyCapitalize o else "Pending") =
      (if o = "" then "Pending" else pyCapitalize o) := by
  by_cases h : o = "" <;> simp [h]

/-- C8: on a record carrying all formatted fields, `format_match` renders
the result field as "Not Played" exactly when it equals the sentinel "-"
and otherwise verbatim (the empty string included), and renders the outcome
field as "Pending" exactly when it is empty and otherwise capitalized
(Python `str.capitalize`: first character uppercased, rest lowercased). -/
theorem format_match_renders (home_team away_team league country m_time pick
    result outcome h_logo a_logo league_logo : String) :
    format_match (mkMatch home_team away_team league country m_time pick
        result outcome h_logo a_logo league_logo) =
      Except.ok (matchBlock league country m_time home_team away_team pick
        (if result = "-" then "Not Played" else result)
        (if outcome = "" then "Pending" else pyCapitalize outcome)
        h_logo a_logo league_logo) := by
  show Except.ok (matchBlock league country m_time home_team away_team pick
      (if result != "-" then result else "Not Played")
      (if outcome != "" then pyCapitalize outcome else "Pending")
      h_logo a_logo league_logo) = _
  rw [render_result_eq, render_outcome_eq]

/-- C4 counterexample: with empty credentials and a response whose HTTP
status is 200 but whose body carries a falsy "ok" field, `send_message`
still reaches its success branch: it performs no credential pre-check and
never reads the body's "ok" field, contradicting both halves of the claim. -/
theorem send_message_ok_field_ignored_cx :
    send_message "" "" "hi" (fun _ _ => Except.ok ⟨200, false, "ok: false"⟩) =
      SendOutcome.posted := rfl

/-- C4 amended: `send_message` never raises (an exception from the POST is
caught and logged) and makes no pre-flight credential check: the POST is
attempted whatever the credentials are, its outcome is decided by the HTTP
status being 200 alone, and the body's "ok" field and the credential values
are ignored in that decision. -/
theorem send_message_status_only :
    (∀ botToken channelId text r,
      send_message botToken channelId text (fun _ _ => Except.ok r) =
        (if r.status = 200 then SendOutcome.posted
         else SendOutcome.failedStatus r.text)) ∧
    (∀ botToken channelId text e,
      send_message botToken channelId text (fun _ _ => Except.error e) =
        SendOutcome.errorCaught e) ∧
    (∀ botToken channelId text s t b b',
      send_message botToken channelId text (fun _ _ => Except.ok ⟨s, b, t⟩) =
        send_message botToken channelId text
          (fun _ _ => Except.ok ⟨s, b', t⟩)) ∧
    (∀ tok tok' cid cid' text r,
      send_message tok cid text (fun _ _ => Except.ok r) =
        send_message tok' cid' text (fun _ _ => Except.ok r)) :=
  ⟨fun _ _ _ _ => rfl, fun _ _ _ _ => rfl, fun _ _ _ _ _ _ _ => rfl,
   fun _ _ _ _ _ _ => rfl⟩

/-- C1: `main` never obtains its dataset from `fetch_data`. `fetch_data`
does map a transport error to `None` (first conjunct), but `main` filters
the hard-coded `jsonData` literal: `mainMessage` takes no fetch outcome at
all, and on a day matching no hard-coded record it publishes the ordinary
no-matches notice — no "error fetching data" notice exists anywhere in the
script (second conjunct evaluates a full cycle). -/
theorem main_ignores_fetch :
    (∀ e, fetch_data (Except.error e) = none) ∧
    mainMessage "2025-01-01" "2025-01-02" [] =
      Except.ok
        "⚽ No matches scheduled for today (2025-01-02). Check back tomorrow! ⚽" :=
  ⟨fun _ => rfl, by decide⟩

end TelegramMatchPoster
